import Mathlib

/-!
Shallow embedding of src/juce_audio_devices.rs (cxx-juce).

Conventions of the embedding:
* Rust `f32` / `f64` values are modelled as `Rat`; the only operations the
  source performs on them (store, load, `max`, `min`) are exact, so rationals
  are a faithful model of every non-NaN float the program handles.
* Rust `usize` is modelled as `Nat` with a 64-bit platform: the casts
  `usize as i32` and `i32 as usize` that appear in the source are modelled
  explicitly by `i32_of_usize` and `usize_of_i32` below.
* Raw pointers (`*mut T`) and `cxx::UniquePtr<T>` are modelled as `Option`
  of the native object they point to; `none` is the null pointer.
* A Rust `panic!` is modelled by returning `none` from an `Option` result.
* The native JUCE side (the `juce` cxx bridge module and the C++ objects
  behind it) is not part of src/; every definition in the `juce` namespace
  carries a doc comment starting `Modelled from the spec:` and follows the
  spec's description of the native engine boundary.
-/

/-- Rust `n as i32` on a 64-bit platform: truncate to the low 32 bits and
reinterpret as a signed two's-complement value. -/
def i32_of_usize (n : Nat) : Int :=
  let m := n % 4294967296
  if m < 2147483648 then (m : Int) else (m : Int) - 4294967296

/-- Rust `v as usize` for `v : i32` on a 64-bit platform: sign-extend to
64 bits and reinterpret as unsigned. -/
def usize_of_i32 (v : Int) : Nat :=
  (v % 18446744073709551616).toNat

/-- Modelled from the spec: a recoverable device error carrying a
human-readable diagnostic (the crate's error type and its Display
implementation live outside src/). -/
structure DeviceError where
  msg : String
deriving DecidableEq

/-- Modelled from the spec: `error.to_string()` renders the diagnostic text. -/
def DeviceError.toString (e : DeviceError) : String := e.msg

/-! ## Sample buffers (source lines 11-99) -/

/-- Modelled from the spec: `juce::AudioSampleBuffer`, a channel-major block
of float samples with a channel count and a per-channel sample count. -/
structure AudioSampleBuffer where
  numChannels : Nat
  numSamples : Nat
  data : Nat → Nat → Rat

/-- Modelled from the spec: `slice::from_raw_parts(get_read_pointer(c), len)`
yields the first `len` samples of channel `c`. -/
def sliceFromRawParts (b : AudioSampleBuffer) (channel : Nat) (len : Nat) : List Rat :=
  (List.range len).map (b.data channel)

/-- `InputAudioSampleBuffer::channels` (source line 22). -/
def InputAudioSampleBuffer.channels (b : AudioSampleBuffer) : Nat :=
  b.numChannels

/-- `InputAudioSampleBuffer::samples` (source line 27). -/
def InputAudioSampleBuffer.samples (b : AudioSampleBuffer) : Nat :=
  b.numSamples

/-- `Index<usize> for InputAudioSampleBuffer` (source lines 32-45).
The source guard is `if self.channels() < channel { panic! }`; `none`
models the panic, `some` the returned slice. -/
def InputAudioSampleBuffer.index (b : AudioSampleBuffer) (channel : Nat) :
    Option (List Rat) :=
  if InputAudioSampleBuffer.channels b < channel then none
  else some (sliceFromRawParts b channel (InputAudioSampleBuffer.samples b))

/-- `OutputAudioSampleBuffer::channels` (source line 58). -/
def OutputAudioSampleBuffer.channels (b : AudioSampleBuffer) : Nat :=
  b.numChannels

/-- `OutputAudioSampleBuffer::samples` (source line 63). -/
def OutputAudioSampleBuffer.samples (b : AudioSampleBuffer) : Nat :=
  b.numSamples

/-- `Index<usize> for OutputAudioSampleBuffer` (source lines 73-86); same
guard `self.channels() < channel` as the input view. -/
def OutputAudioSampleBuffer.index (b : AudioSampleBuffer) (channel : Nat) :
    Option (List Rat) :=
  if OutputAudioSampleBuffer.channels b < channel then none
  else some (sliceFromRawParts b channel (OutputAudioSampleBuffer.samples b))

/-- `IndexMut<usize> for OutputAudioSampleBuffer` (source lines 88-99); the
write pointer addresses the same channel data, so the slice contents and
length coincide with the read view. -/
def OutputAudioSampleBuffer.index_mut (b : AudioSampleBuffer) (channel : Nat) :
    Option (List Rat) :=
  if OutputAudioSampleBuffer.channels b < channel then none
  else some (sliceFromRawParts b channel (OutputAudioSampleBuffer.samples b))

/-! ## AudioDeviceSetup (source lines 101-154) -/

/-- Modelled from the spec: the native `juce::AudioDeviceSetup` record —
output device name, input device name, sample rate (a C++ double), buffer
size (a C++ `int`, i.e. a 32-bit signed integer). -/
structure AudioDeviceSetup where
  outputDeviceName : String
  inputDeviceName : String
  sampleRate : Rat
  bufferSize : Int
deriving DecidableEq

/-- Modelled from the spec: `juce::create_audio_device_setup()` default
constructs the record (empty names, zero rate and size). -/
def AudioDeviceSetup.default : AudioDeviceSetup :=
  { outputDeviceName := "", inputDeviceName := "", sampleRate := 0, bufferSize := 0 }

/-- `AudioDeviceSetup::output_device_name` (source line 112). -/
def AudioDeviceSetup.output_device_name (s : AudioDeviceSetup) : String :=
  s.outputDeviceName

/-- `AudioDeviceSetup::with_output_device_name` (source line 117). -/
def AudioDeviceSetup.with_output_device_name (s : AudioDeviceSetup) (name : String) :
    AudioDeviceSetup :=
  { s with outputDeviceName := name }

/-- `AudioDeviceSetup::input_device_name` (source line 123). -/
def AudioDeviceSetup.input_device_name (s : AudioDeviceSetup) : String :=
  s.inputDeviceName

/-- `AudioDeviceSetup::with_input_device_name` (source line 128). -/
def AudioDeviceSetup.with_input_device_name (s : AudioDeviceSetup) (name : String) :
    AudioDeviceSetup :=
  { s with inputDeviceName := name }

/-- `AudioDeviceSetup::sample_rate` (source line 134). -/
def AudioDeviceSetup.sample_rate (s : AudioDeviceSetup) : Rat :=
  s.sampleRate

/-- `AudioDeviceSetup::with_sample_rate` (source line 139). -/
def AudioDeviceSetup.with_sample_rate (s : AudioDeviceSetup) (sampleRate : Rat) :
    AudioDeviceSetup :=
  { s with sampleRate := sampleRate }

/-- `AudioDeviceSetup::buffer_size` (source line 145): reads the stored
`int` and casts it with `as usize`. -/
def AudioDeviceSetup.buffer_size (s : AudioDeviceSetup) : Nat :=
  usize_of_i32 s.bufferSize

/-- `AudioDeviceSetup::with_buffer_size` (source line 150): stores
`buffer_size as i32`. -/
def AudioDeviceSetup.with_buffer_size (s : AudioDeviceSetup) (bufferSize : Nat) :
    AudioDeviceSetup :=
  { s with bufferSize := i32_of_usize bufferSize }

/-! ## Native audio device model (the juce bridge boundary) -/

/-- Modelled from the spec: a native `juce::AudioIODevice` — name, owning
type name, current rate and size, the sets of supported rates and sizes,
an open flag, and the engine's acceptance predicate and diagnostic for
`open` requests. -/
structure NativeDevice where
  deviceName : String
  deviceTypeName : String
  sampleRateNow : Rat
  bufferSizeNow : Int
  ratesAvail : List Rat
  sizesAvail : List Nat
  isOpen : Bool
  acceptsConfig : Rat → Nat → Bool
  openErrText : String

/-- Modelled from the spec: `juce::get_device_name`. -/
def juce.get_device_name (d : NativeDevice) : String := d.deviceName

/-- Modelled from the spec: `juce::get_device_type_name`. -/
def juce.get_device_type_name (d : NativeDevice) : String := d.deviceTypeName

/-- Modelled from the spec: `AudioIODevice::getCurrentSampleRate`. -/
def juce.get_current_sample_rate (d : NativeDevice) : Rat := d.sampleRateNow

/-- Modelled from the spec: `AudioIODevice::getCurrentBufferSizeSamples`
(a C++ `int`). -/
def juce.get_current_buffer_size_samples (d : NativeDevice) : Int := d.bufferSizeNow

/-- Modelled from the spec: `juce::get_available_sample_rates`. -/
def juce.get_available_sample_rates (d : NativeDevice) : List Rat := d.ratesAvail

/-- Modelled from the spec: `juce::get_available_buffer_sizes`. -/
def juce.get_available_buffer_sizes (d : NativeDevice) : List Nat := d.sizesAvail

/-- Modelled from the spec: `juce::open(device, rate, size)` — on an accepted
configuration the device becomes open with the requested rate and size and
the call succeeds; on a rejected configuration the device is unchanged and
the call fails with the engine's diagnostic. Returns the updated native
device together with the result. -/
def juce.openNative (d : NativeDevice) (sampleRate : Rat) (bufferSize : Nat) :
    NativeDevice × Except DeviceError Unit :=
  if d.acceptsConfig sampleRate bufferSize then
    ({ d with isOpen := true, sampleRateNow := sampleRate,
              bufferSizeNow := i32_of_usize bufferSize }, Except.ok ())
  else
    (d, Except.error { msg := d.openErrText })

/-- Modelled from the spec: `AudioIODevice::close`. -/
def juce.closeNative (d : NativeDevice) : NativeDevice := { d with isOpen := false }

/-! ## `impl AudioIODevice for *mut juce::AudioIODevice` (source lines 385-435)

The raw pointer is `Option NativeDevice`; `none` is null. State-modifying
operations return the updated pointee alongside the caller-visible result. -/

/-- Source lines 386-390: `as_ref().map(get_device_name).unwrap_or_default()`. -/
def RawDevicePtr.name (p : Option NativeDevice) : String :=
  (p.map juce.get_device_name).getD ""

/-- Source lines 392-396. -/
def RawDevicePtr.type_name (p : Option NativeDevice) : String :=
  (p.map juce.get_device_type_name).getD ""

/-- Source lines 398-402. -/
def RawDevicePtr.sample_rate (p : Option NativeDevice) : Rat :=
  (p.map juce.get_current_sample_rate).getD 0

/-- Source lines 404-408: `get_current_buffer_size_samples() as usize`,
defaulting to 0 on null. -/
def RawDevicePtr.buffer_size (p : Option NativeDevice) : Nat :=
  (p.map (fun d => usize_of_i32 (juce.get_current_buffer_size_samples d))).getD 0

/-- Source lines 410-414. -/
def RawDevicePtr.available_sample_rates (p : Option NativeDevice) : List Rat :=
  (p.map juce.get_available_sample_rates).getD []

/-- Source lines 416-420. -/
def RawDevicePtr.available_buffer_sizes (p : Option NativeDevice) : List Nat :=
  (p.map juce.get_available_buffer_sizes).getD []

/-- Source lines 422-428: on a null pointer the body is skipped and `Ok(())`
is returned; otherwise `juce::open(..)?` propagates the engine result. -/
def RawDevicePtr.openDevice (p : Option NativeDevice) (sampleRate : Rat)
    (bufferSize : Nat) : Option NativeDevice × Except DeviceError Unit :=
  match p with
  | none => (none, Except.ok ())
  | some d =>
    match juce.openNative d sampleRate bufferSize with
    | (d2, Except.ok ()) => (some d2, Except.ok ())
    | (d2, Except.error e) => (some d2, Except.error e)

/-- Source lines 430-434: `close` is a no-op on null. -/
def RawDevicePtr.close (p : Option NativeDevice) : Option NativeDevice :=
  match p with
  | none => none
  | some d => some (juce.closeNative d)

/-! ## `impl AudioIODevice for cxx::UniquePtr<juce::AudioIODevice>`
(source lines 437-485); the owned smart pointer is likewise
`Option NativeDevice`, `none` when it holds no object. -/

/-- Source lines 438-440. -/
def UniqueDevicePtr.name (p : Option NativeDevice) : String :=
  (p.map juce.get_device_name).getD ""

/-- Source lines 442-446. -/
def UniqueDevicePtr.type_name (p : Option NativeDevice) : String :=
  (p.map juce.get_device_type_name).getD ""

/-- Source lines 448-452. -/
def UniqueDevicePtr.sample_rate (p : Option NativeDevice) : Rat :=
  (p.map juce.get_current_sample_rate).getD 0

/-- Source lines 454-458. -/
def UniqueDevicePtr.buffer_size (p : Option NativeDevice) : Nat :=
  (p.map (fun d => usize_of_i32 (juce.get_current_buffer_size_samples d))).getD 0

/-- Source lines 460-464. -/
def UniqueDevicePtr.available_sample_rates (p : Option NativeDevice) : List Rat :=
  (p.map juce.get_available_sample_rates).getD []

/-- Source lines 466-470. -/
def UniqueDevicePtr.available_buffer_sizes (p : Option NativeDevice) : List Nat :=
  (p.map juce.get_available_buffer_sizes).getD []

/-- Source lines 472-478: same shape as the raw-pointer `open`. -/
def UniqueDevicePtr.openDevice (p : Option NativeDevice) (sampleRate : Rat)
    (bufferSize : Nat) : Option NativeDevice × Except DeviceError Unit :=
  match p with
  | none => (none, Except.ok ())
  | some d =>
    match juce.openNative d sampleRate bufferSize with
    | (d2, Except.ok ()) => (some d2, Except.ok ())
    | (d2, Except.error e) => (some d2, Except.error e)

/-- Source lines 480-484. -/
def UniqueDevicePtr.close (p : Option NativeDevice) : Option NativeDevice :=
  match p with
  | none => none
  | some d => some (juce.closeNative d)

/-! ## Native device-type model and
`impl AudioIODeviceType for *mut juce::AudioIODeviceType` (source lines 312-356) -/

/-- Modelled from the spec: a native `juce::AudioIODeviceType` — its name,
the cached input/output device-name lists, the lists a rescan would install,
and the engine's device construction for a pair of names (`none` models the
null device handle the engine yields when it cannot construct one). -/
structure NativeDeviceType where
  typeName : String
  inputNames : List String
  outputNames : List String
  freshInputNames : List String
  freshOutputNames : List String
  makeDevice : String → String → Option NativeDevice

/-- Modelled from the spec: `juce::get_type_name`. -/
def juce.get_type_name (t : NativeDeviceType) : String := t.typeName

/-- Modelled from the spec: `AudioIODeviceType::scanForDevices` refreshes the
cached device-name lists. -/
def juce.scan_native (t : NativeDeviceType) : NativeDeviceType :=
  { t with inputNames := t.freshInputNames, outputNames := t.freshOutputNames }

/-- Modelled from the spec: `juce::get_input_device_names`. -/
def juce.get_input_device_names (t : NativeDeviceType) : List String := t.inputNames

/-- Modelled from the spec: `juce::get_output_device_names`. -/
def juce.get_output_device_names (t : NativeDeviceType) : List String := t.outputNames

/-- Modelled from the spec: `juce::new_device` asks the engine to construct a
device for the given names; a null handle (`none`) means it could not. -/
def juce.new_device (t : NativeDeviceType) (inputName outputName : String) :
    Option NativeDevice :=
  t.makeDevice inputName outputName

/-- Source lines 313-320: `name` returns `String::default()` on null. -/
def RawDeviceTypePtr.name (p : Option NativeDeviceType) : String :=
  match p with
  | none => ""
  | some t => juce.get_type_name t

/-- Source lines 322-326: `scan_for_devices` is a no-op on null. -/
def RawDeviceTypePtr.scan_for_devices (p : Option NativeDeviceType) :
    Option NativeDeviceType :=
  match p with
  | none => none
  | some t => some (juce.scan_native t)

/-- Source lines 328-335: `input_devices` returns `vec![]` on null. -/
def RawDeviceTypePtr.input_devices (p : Option NativeDeviceType) : List String :=
  match p with
  | none => []
  | some t => juce.get_input_device_names t

/-- Source lines 337-344: `output_devices` returns `vec![]` on null. -/
def RawDeviceTypePtr.output_devices (p : Option NativeDeviceType) : List String :=
  match p with
  | none => []
  | some t => juce.get_output_device_names t

/-- Source lines 346-355: `as_mut().map(new_device).filter(not null).map(Box::new)`.
The outer `Option` is the Rust `Option<Box<dyn AudioIODevice>>`; the boxed
payload is the raw device pointer, kept as `Option NativeDevice` (always
`some` past the filter). -/
def RawDeviceTypePtr.create_device (p : Option NativeDeviceType)
    (inputDeviceName outputDeviceName : String) : Option (Option NativeDevice) :=
  Option.map (fun d => d)
    (Option.filter (fun d => d.isSome)
      (Option.map (fun t => juce.new_device t inputDeviceName outputDeviceName) p))

/-! ## AudioDeviceManager::set_audio_device_setup (source lines 191-196) -/

/-- Modelled from the spec: the native `juce::AudioDeviceManager` — the
active configuration, the engine's acceptance predicate for requested
setups, and its diagnostic text for rejections. -/
structure NativeDeviceManager where
  activeSetup : AudioDeviceSetup
  acceptsSetup : AudioDeviceSetup → Bool
  errText : String

/-- Modelled from the spec: the native `set_audio_device_setup` applies an
accepted setup and succeeds; a rejected setup leaves the previous
configuration active and fails with a DeviceError (spec 4.4: on failure the
previous configuration remains active, no partial application). -/
def juce.set_audio_device_setup (m : NativeDeviceManager) (s : AudioDeviceSetup) :
    NativeDeviceManager × Except DeviceError Unit :=
  if m.acceptsSetup s then
    ({ m with activeSetup := s }, Except.ok ())
  else
    (m, Except.error { msg := m.errText })

/-- `AudioDeviceManager::set_audio_device_setup` (source lines 192-196): the
wrapper calls the native bridge as a bare statement and returns nothing, so
the bridge's result value is discarded and the caller receives `()`. -/
def AudioDeviceManager.set_audio_device_setup (m : NativeDeviceManager)
    (setup : AudioDeviceSetup) : NativeDeviceManager × Unit :=
  ((juce.set_audio_device_setup m setup).1, ())

/-! ## ffi::audio_io_device::device_open (source lines 593-602) -/

/-- A `BoxedAudioIODevice` trait object, modelled by the behaviour of its
`open` operation (the only one `device_open` consults): the result the
implementation returns for each requested rate and size. -/
structure DynAudioIODevice where
  openResult : Rat → Nat → Except DeviceError Unit

/-- `ffi::audio_io_device::device_open` (source lines 593-602): `Ok(())`
maps to `String::default()`, `Err(e)` maps to `e.to_string()`. -/
def ffi.device_open (d : DynAudioIODevice) (sampleRate : Rat) (bufferSize : Nat) :
    String :=
  match d.openResult sampleRate bufferSize with
  | Except.ok () => ""
  | Except.error e => DeviceError.toString e

/-! ## SystemAudioVolume (source lines 610-638) -/

/-- Modelled from the spec: the system mixer state the native gain/mute
calls read and write. -/
structure SystemVolumeState where
  gain : Rat
  muted : Bool

/-- Modelled from the spec: `juce::set_gain` stores the passed gain. -/
def juce.set_gain (st : SystemVolumeState) (g : Rat) : SystemVolumeState :=
  { st with gain := g }

/-- Modelled from the spec: `juce::get_gain` reads the stored gain. -/
def juce.get_gain (st : SystemVolumeState) : Rat := st.gain

/-- `SystemAudioVolume::set_gain` (source lines 620-622): passes
`gain.max(0.0).min(1.0)` to the native engine; `f32::max` / `f32::min` on
non-NaN arguments are the ordinary lattice operations. -/
def SystemAudioVolume.set_gain (st : SystemVolumeState) (gain : Rat) :
    SystemVolumeState :=
  juce.set_gain st (min (max gain 0) 1)

/-- `SystemAudioVolume::get_gain` (source lines 615-617). -/
def SystemAudioVolume.get_gain (st : SystemVolumeState) : Rat :=
  juce.get_gain st

/-! ## Concrete objects used by counterexamples and witnesses -/

/-- A one-channel, four-sample buffer. -/
def buf1 : AudioSampleBuffer :=
  { numChannels := 1, numSamples := 4, data := fun _ _ => 0 }

/-- A two-channel, three-sample buffer. -/
def buf2 : AudioSampleBuffer :=
  { numChannels := 2, numSamples := 3, data := fun _ _ => 0 }

/-- A native manager that rejects every requested setup. -/
def rejectingManager : NativeDeviceManager :=
  { activeSetup := AudioDeviceSetup.default,
    acceptsSetup := fun _ => false,
    errText := "requested device setup is invalid" }

/-- A native manager that accepts every requested setup. -/
def acceptingManager : NativeDeviceManager :=
  { activeSetup := AudioDeviceSetup.default,
    acceptsSetup := fun _ => true,
    errText := "" }

/-- A device-type stub with no known devices, whose engine yields a null
device handle for every pair of names. -/
def stubDeviceType : NativeDeviceType :=
  { typeName := "Stub", inputNames := [], outputNames := [],
    freshInputNames := [], freshOutputNames := [],
    makeDevice := fun _ _ => none }

/-- A trait-object device whose `open` always succeeds. -/
def dynDeviceOk : DynAudioIODevice :=
  { openResult := fun _ _ => Except.ok () }

/-- A trait-object device whose `open` always fails with diagnostic "boom". -/
def dynDeviceErr : DynAudioIODevice :=
  { openResult := fun _ _ => Except.error { msg := "boom" } }

/-- A trait-object device whose `open` always fails with an empty diagnostic. -/
def dynDeviceErrEmpty : DynAudioIODevice :=
  { openResult := fun _ _ => Except.error { msg := "" } }

/-- A concrete system mixer state. -/
def volState : SystemVolumeState := { gain := 1/2, muted := false }

/-! ## Theorems -/

/-- C1: the spec requires indexing a buffer view by any channel index
`c >= channels()` to panic, but the source guard `self.channels() < channel`
misses the boundary `c = channels()`: on a one-channel buffer, indexing
channel 1 does not panic (`isSome`) in all three implementations — the
read-only `Index` on both views and `IndexMut` on the write view — and a
slice is built from the out-of-range channel pointer; only `c = 2` panics. -/
theorem C1_boundary_index_not_caught :
    InputAudioSampleBuffer.channels buf1 = 1 ∧
    (InputAudioSampleBuffer.index buf1 1).isSome = true ∧
    (OutputAudioSampleBuffer.index buf1 1).isSome = true ∧
    (OutputAudioSampleBuffer.index_mut buf1 1).isSome = true ∧
    InputAudioSampleBuffer.index buf1 2 = none :=
  ⟨rfl, rfl, rfl, rfl, rfl⟩

/-- C2: the spec requires every engine-surfaced failure of
`set_audio_device_setup` to reach the caller as a DeviceError, but the
wrapper (source lines 192-196) returns unit and discards the bridge
result: on a manager that rejects the requested setup the native call
fails, yet the caller-visible result equals the one of a successful call;
the previously active configuration does remain active. -/
theorem C2_set_setup_error_discarded :
    (juce.set_audio_device_setup rejectingManager
        (AudioDeviceSetup.default.with_sample_rate 48000)).2
      = Except.error { msg := "requested device setup is invalid" } ∧
    (AudioDeviceManager.set_audio_device_setup rejectingManager
        (AudioDeviceSetup.default.with_sample_rate 48000)).2
      = (AudioDeviceManager.set_audio_device_setup acceptingManager
          (AudioDeviceSetup.default.with_sample_rate 48000)).2 ∧
    (AudioDeviceManager.set_audio_device_setup rejectingManager
        (AudioDeviceSetup.default.with_sample_rate 48000)).1.activeSetup
      = rejectingManager.activeSetup :=
  ⟨rfl, rfl, rfl⟩

/-- C3 counterexample: the builder round-trip fails for
`with_buffer_size`/`buffer_size` at the usize value 2^31: the stored
`as i32` cast wraps to -2^31 and reading it back `as usize` sign-extends
to 2^64 - 2^31, not 2^31. -/
theorem C3_buffer_size_roundtrip_fails_at_two_pow_31 :
    (AudioDeviceSetup.default.with_buffer_size 2147483648).buffer_size
      = 18446744071562067968 ∧
    (AudioDeviceSetup.default.with_buffer_size 2147483648).buffer_size
      ≠ 2147483648 := by
  constructor
  · decide
  · decide

/-- C3 (amended): every builder setter followed by its getter returns the
set value unchanged — for every output/input device name, every sample
rate, and every buffer size representable in the stored 32-bit int
(below 2^31); larger sizes wrap through the i32 cast. -/
theorem C3_builder_roundtrip (s : AudioDeviceSetup) (outName inName : String)
    (sr : Rat) (n : Nat) (h : n < 2147483648) :
    (s.with_output_device_name outName).output_device_name = outName ∧
    (s.with_input_device_name inName).input_device_name = inName ∧
    (s.with_sample_rate sr).sample_rate = sr ∧
    (s.with_buffer_size n).buffer_size = n := by
  refine ⟨rfl, rfl, rfl, ?_⟩
  simp only [AudioDeviceSetup.with_buffer_size, AudioDeviceSetup.buffer_size,
    i32_of_usize, usize_of_i32]
  split <;> omega

/-- Witness for C3: the round-trip at concrete values, with the buffer
size 512 inside the representable range. -/
theorem C3_builder_roundtrip_witness :
    (512 : Nat) < 2147483648 ∧
    ((AudioDeviceSetup.default.with_output_device_name "speakers").output_device_name
        = "speakers" ∧
     (AudioDeviceSetup.default.with_input_device_name "mic").input_device_name = "mic" ∧
     (AudioDeviceSetup.default.with_sample_rate 48000).sample_rate = 48000 ∧
     (AudioDeviceSetup.default.with_buffer_size 512).buffer_size = 512) :=
  ⟨by decide,
   C3_builder_roundtrip AudioDeviceSetup.default "speakers" "mic" 48000 512 (by decide)⟩

/-- C5: every operation of the raw-pointer-backed device-type and device
realizations degrades to a default on a null backing pointer: empty
strings for names, default values for rate and size, empty lists for the
option queries, no-ops for scan and close, success for open, and no
device from create_device. -/
theorem C5_null_backing_degrades_to_defaults :
    RawDeviceTypePtr.name none = "" ∧
    RawDeviceTypePtr.scan_for_devices none = none ∧
    RawDeviceTypePtr.input_devices none = [] ∧
    RawDeviceTypePtr.output_devices none = [] ∧
    (∀ i o, RawDeviceTypePtr.create_device none i o = none) ∧
    RawDevicePtr.name none = "" ∧
    RawDevicePtr.type_name none = "" ∧
    RawDevicePtr.sample_rate none = 0 ∧
    RawDevicePtr.buffer_size none = 0 ∧
    RawDevicePtr.available_sample_rates none = [] ∧
    RawDevicePtr.available_buffer_sizes none = [] ∧
    (∀ sr bs, RawDevicePtr.openDevice none sr bs = (none, Except.ok ())) ∧
    RawDevicePtr.close none = none :=
  ⟨rfl, rfl, rfl, rfl, fun _ _ => rfl, rfl, rfl, rfl, rfl, rfl, rfl,
   fun _ _ => rfl, rfl⟩

/-- C6: whenever the native engine yields a null device handle for a pair
of names, `create_device` returns None — a normal "no device" outcome,
not an error value. -/
theorem C6_create_device_none_on_null_handle (t : NativeDeviceType)
    (inputName outputName : String)
    (h : juce.new_device t inputName outputName = none) :
    RawDeviceTypePtr.create_device (some t) inputName outputName = none := by
  have hrw : RawDeviceTypePtr.create_device (some t) inputName outputName
      = Option.map (fun d => d)
          (Option.filter (fun d => d.isSome)
            (some (juce.new_device t inputName outputName))) := rfl
  rw [hrw, h]
  rfl

/-- Witness for C6: a device-type stub with no known devices yields no
device for arbitrary names. -/
theorem C6_create_device_none_witness :
    juce.new_device stubDeviceType "in" "out" = none ∧
    RawDeviceTypePtr.create_device (some stubDeviceType) "in" "out" = none :=
  ⟨rfl, C6_create_device_none_on_null_handle stubDeviceType "in" "out" rfl⟩

/-- C7: for every channel index below `channels()`, indexing either buffer
view (and mutably indexing the write view) succeeds and returns a slice of
exactly `samples()` floats. -/
theorem C7_valid_index_returns_full_slice (b : AudioSampleBuffer) (c : Nat)
    (h : c < InputAudioSampleBuffer.channels b) :
    (∃ l, InputAudioSampleBuffer.index b c = some l ∧
        l.length = InputAudioSampleBuffer.samples b) ∧
    (∃ l, OutputAudioSampleBuffer.index b c = some l ∧
        l.length = OutputAudioSampleBuffer.samples b) ∧
    (∃ l, OutputAudioSampleBuffer.index_mut b c = some l ∧
        l.length = OutputAudioSampleBuffer.samples b) := by
  have hle : c ≤ b.numChannels := Nat.le_of_lt h
  refine ⟨⟨sliceFromRawParts b c b.numSamples, ?_, ?_⟩,
          ⟨sliceFromRawParts b c b.numSamples, ?_, ?_⟩,
          ⟨sliceFromRawParts b c b.numSamples, ?_, ?_⟩⟩ <;>
    simp [InputAudioSampleBuffer.index, OutputAudioSampleBuffer.index,
      OutputAudioSampleBuffer.index_mut, InputAudioSampleBuffer.channels,
      OutputAudioSampleBuffer.channels, InputAudioSampleBuffer.samples,
      OutputAudioSampleBuffer.samples, sliceFromRawParts, hle]

/-- Witness for C7: channel 0 of a two-channel, three-sample buffer. -/
theorem C7_valid_index_witness :
    0 < InputAudioSampleBuffer.channels buf2 ∧
    (∃ l, InputAudioSampleBuffer.index buf2 0 = some l ∧
        l.length = InputAudioSampleBuffer.samples buf2) :=
  ⟨by decide, (C7_valid_index_returns_full_slice buf2 0 (by decide)).1⟩

/-- C8: `SystemAudioVolume::set_gain` passes the native engine a gain
clamped to [0, 1]: the stored gain is always in range, arguments above 1
store 1, arguments below 0 store 0, and in-range arguments pass through
unchanged; `get_gain` then reads back the clamped value. -/
theorem C8_set_gain_clamps (st : SystemVolumeState) (g : Rat) :
    (0 ≤ SystemAudioVolume.get_gain (SystemAudioVolume.set_gain st g) ∧
     SystemAudioVolume.get_gain (SystemAudioVolume.set_gain st g) ≤ 1) ∧
    (1 < g → SystemAudioVolume.get_gain (SystemAudioVolume.set_gain st g) = 1) ∧
    (g < 0 → SystemAudioVolume.get_gain (SystemAudioVolume.set_gain st g) = 0) ∧
    (0 ≤ g → g ≤ 1 →
      SystemAudioVolume.get_gain (SystemAudioVolume.set_gain st g) = g) := by
  simp only [SystemAudioVolume.set_gain, SystemAudioVolume.get_gain,
    juce.set_gain, juce.get_gain]
  refine ⟨⟨le_min (le_max_right g 0) zero_le_one, min_le_right _ 1⟩,
    fun h1 => ?_, fun h0 => ?_, fun ha hb => ?_⟩
  · rw [max_eq_left (by linarith), min_eq_right (by linarith)]
  · rw [max_eq_right (le_of_lt h0), min_eq_left zero_le_one]
  · rw [max_eq_left ha, min_eq_left hb]

/-- Witness for C8: setting 3/2 stores and reads back 1, setting -1/5
stores and reads back 0. -/
theorem C8_set_gain_clamps_witness :
    SystemAudioVolume.get_gain (SystemAudioVolume.set_gain volState (3/2)) = 1 ∧
    SystemAudioVolume.get_gain (SystemAudioVolume.set_gain volState (-1/5)) = 0 :=
  ⟨(C8_set_gain_clamps volState (3/2)).2.1 (by norm_num),
   (C8_set_gain_clamps volState (-1/5)).2.2.1 (by norm_num)⟩

/-- C9: the raw-pointer-backed and the uniquely-owned realizations of the
device contract agree on every operation in every backing state (present
or absent), including the device state after open and close. -/
theorem C9_raw_and_owned_device_impls_agree (p : Option NativeDevice)
    (sr : Rat) (bs : Nat) :
    RawDevicePtr.name p = UniqueDevicePtr.name p ∧
    RawDevicePtr.type_name p = UniqueDevicePtr.type_name p ∧
    RawDevicePtr.sample_rate p = UniqueDevicePtr.sample_rate p ∧
    RawDevicePtr.buffer_size p = UniqueDevicePtr.buffer_size p ∧
    RawDevicePtr.available_sample_rates p = UniqueDevicePtr.available_sample_rates p ∧
    RawDevicePtr.available_buffer_sizes p = UniqueDevicePtr.available_buffer_sizes p ∧
    RawDevicePtr.openDevice p sr bs = UniqueDevicePtr.openDevice p sr bs ∧
    RawDevicePtr.close p = UniqueDevicePtr.close p :=
  ⟨rfl, rfl, rfl, rfl, rfl, rfl, rfl, rfl⟩

/-- C10: `device_open` returns the empty string when the underlying open
succeeded and the error's display text when it failed; a failure whose
display text is empty therefore produces the same FFI result as success. -/
theorem C10_device_open_string_mapping (d : DynAudioIODevice)
    (sr : Rat) (bs : Nat) :
    (d.openResult sr bs = Except.ok () → ffi.device_open d sr bs = "") ∧
    (∀ e, d.openResult sr bs = Except.error e →
        ffi.device_open d sr bs = DeviceError.toString e) ∧
    (∀ e, d.openResult sr bs = Except.error e → DeviceError.toString e = "" →
        ffi.device_open d sr bs = "") := by
  refine ⟨fun h => ?_, fun e h => ?_, fun e h he => ?_⟩
  · simp [ffi.device_open, h]
  · simp [ffi.device_open, h]
  · simp [ffi.device_open, h, he]

/-- Witness for C10: a succeeding open maps to the empty string, a failing
open maps to its diagnostic, and a failing open with empty diagnostic is
indistinguishable from success. -/
theorem C10_device_open_witness :
    ffi.device_open dynDeviceOk 48000 512 = "" ∧
    ffi.device_open dynDeviceErr 48000 512 = "boom" ∧
    ffi.device_open dynDeviceErrEmpty 48000 512 = "" :=
  ⟨(C10_device_open_string_mapping dynDeviceOk 48000 512).1 rfl,
   (C10_device_open_string_mapping dynDeviceErr 48000 512).2.1 { msg := "boom" } rfl,
   (C10_device_open_string_mapping dynDeviceErrEmpty 48000 512).2.2 { msg := "" } rfl rfl⟩
